import Mathlib

/-!
Shallow embedding of the MiV-OS spike-cutout data model and the
abnormality-detection pipeline:

* `miv/signal/spike/cutout.py` (`SpikeCutout`, `ChannelSpikeCutout`)
* `miv/signal/events/abnormality_detection.py` (`AbnormalityDetector`)

Numeric values (waveform samples, spike times, sampling rates,
probabilities) are embedded as rationals; category codes as integers;
component indices as naturals.  Python exceptions are embedded as
`Except String` with the exception class name as the message.
-/

/-- Message of a Python IndexError raised by out-of-range sequence indexing. -/
def IndexErrorMsg : String := "IndexError"

/-- Message of a Python TypeError. -/
def TypeErrorMsg : String := "TypeError"

/-- Message of a Python ValueError (e.g. ambiguous numpy array truth value). -/
def ValueErrorMsg : String := "ValueError"

/-- The message of the exception raised by the inference methods of
`AbnormalityDetector` when the model is untrained
(abnormality_detection.py lines 277 and 335). -/
def untrainedMsg : String := "Abnormality detector is not trained yet."

/-- Python sequence indexing `l[i]` for a non-negative index: returns the
element, or raises IndexError when `i` is out of range. -/
def pyIndex {α : Type} (l : List α) (i : Nat) : Except String α :=
  match l[i]? with
  | some v => Except.ok v
  | none => Except.error IndexErrorMsg

/-- A spike cutout as it is used throughout abnormality_detection.py:
the waveform samples, the sampling rate, the assigned feature-extractor
component index and the spike time (cutout.py lines 10-32 declare the class;
the `time` field is the one its callers pass and read, see `initParams`). -/
structure SpikeCutout where
  cutout : List ℚ
  sampling_rate : ℚ
  pca_comp_index : Nat
  time : ℚ
deriving DecidableEq, Repr

/-- The parameters actually bound by `SpikeCutout.__init__` in cutout.py
lines 21-29 (besides `self`).  Note that `time` is not among them. -/
def SpikeCutout.initParams : List String :=
  ["cutout", "sampling_rate", "pca_comp_index"]

/-- The Python call `SpikeCutout(raw_cutout, samp, label, spike_time)` made in
abnormality_detection.py lines 103-110: four positional arguments.  The call
succeeds only if the arity matches the three parameters of
`SpikeCutout.__init__` (cutout.py lines 21-26); otherwise Python raises
TypeError before any object is created. -/
def SpikeCutout.construct4 (c : List ℚ) (samp : ℚ) (lab : Nat) (t : ℚ) :
    Except String SpikeCutout :=
  if SpikeCutout.initParams.length = 4 then
    Except.ok ⟨c, samp, lab, t⟩
  else
    Except.error TypeErrorMsg

/-- The Python expression `list(sc)` applied to a `SpikeCutout` object
(abnormality_detection.py line 173): `SpikeCutout` defines `__len__` but
neither `__iter__` nor `__getitem__`, so `list(sc)` raises TypeError. -/
def pyListSpikeCutout (_sc : SpikeCutout) : Except String (List ℚ) :=
  Except.error TypeErrorMsg

/-- The Python statement `for cutout_index, spike_cutout in comp_cutouts`
(abnormality_detection.py lines 352 and 359) unpacks each element of
`comp_cutouts` — a `SpikeCutout` object — into a pair.  `SpikeCutout` is not
iterable, so unpacking raises TypeError. -/
def pyUnpack2 (_sc : SpikeCutout) : Except String (Nat × SpikeCutout) :=
  Except.error TypeErrorMsg

/-- `ChannelSpikeCutout` (cutout.py lines 35-68): the cutouts of one channel,
the feature-extractor rank `num_components`, the channel index, and the
categorization state. -/
structure ChannelSpikeCutout where
  cutouts : List SpikeCutout
  num_components : Nat
  channel_index : Nat
  categorized : Bool
  categorization_list : List ℤ
deriving DecidableEq, Repr

/-- `ChannelSpikeCutout.categorize` (cutout.py lines 86-102): a category list
shorter than `num_components` resets the channel to all-uncategorized and
`categorized = False`; otherwise it is installed and `categorized = True`. -/
def ChannelSpikeCutout.categorize (c : ChannelSpikeCutout)
    (category_index : List ℤ) : ChannelSpikeCutout :=
  if category_index.length < c.num_components then
    { c with categorization_list := List.replicate c.num_components 0,
             categorized := false }
  else
    { c with categorization_list := category_index, categorized := true }

/-- The dictionary returned by `ChannelSpikeCutout.get_labeled_cutouts`
(cutout.py line 125). -/
structure LabeledCutouts where
  labels : List ℤ
  labeled_cutouts : List SpikeCutout
  size : Nat
deriving DecidableEq, Repr

/-- The per-cutout lookups `categorization_list[cutout.pca_comp_index]`
performed by the loop of `get_labeled_cutouts` (cutout.py lines 121-122),
in cutout order; `none` embeds the IndexError of an out-of-range lookup. -/
def labelsOf (cl : List ℤ) : List SpikeCutout → Option (List ℤ)
  | [] => some []
  | sc :: rest =>
    match cl[sc.pca_comp_index]?, labelsOf cl rest with
    | some v, some vs => some (v :: vs)
    | _, _ => none

/-- `ChannelSpikeCutout.get_labeled_cutouts` (cutout.py lines 104-125):
when categorized, one label per cutout (the category of its component), the
cutouts themselves, and their count; otherwise empty results of size 0. -/
def ChannelSpikeCutout.get_labeled_cutouts (c : ChannelSpikeCutout) :
    Option LabeledCutouts :=
  if c.categorized then
    (labelsOf c.categorization_list c.cutouts).map
      (fun ls => ⟨ls, c.cutouts, c.cutouts.length⟩)
  else
    some ⟨[], [], 0⟩

/-- Insert a cutout at the end of bucket `i`, as
`components[cutout.pca_comp_index].append(cutout)` does
(cutout.py line 83); `none` embeds the IndexError when `i` is out of range. -/
def appendAt : List (List SpikeCutout) → Nat → SpikeCutout →
    Option (List (List SpikeCutout))
  | [], _, _ => none
  | l :: ls, 0, x => some ((l ++ [x]) :: ls)
  | l :: ls, i + 1, x => (appendAt ls i x).map (fun r => l :: r)

/-- The grouping loop of `get_cutouts_by_component`
(cutout.py lines 82-83). -/
def groupAux : List (List SpikeCutout) → List SpikeCutout →
    Except String (List (List SpikeCutout))
  | comps, [] => Except.ok comps
  | comps, sc :: rest =>
    match appendAt comps sc.pca_comp_index sc with
    | some comps2 => groupAux comps2 rest
    | none => Except.error IndexErrorMsg

/-- `ChannelSpikeCutout.get_cutouts_by_component` (cutout.py lines 73-84):
one bucket per component index, cutouts kept in original order. -/
def ChannelSpikeCutout.get_cutouts_by_component (c : ChannelSpikeCutout) :
    Except String (List (List SpikeCutout)) :=
  groupAux (List.replicate c.num_components []) c.cutouts

/-- The inner loop of `AbnormalityDetector._get_cutouts` for one channel with
enough spikes (abnormality_detection.py lines 94-110): for every raw waveform
(index `i`), look up its projection label and its spike time, then call the
`SpikeCutout` constructor with the four positional arguments. -/
def buildChannelAux (samp : ℚ) (labs : List Nat) (spks : List ℚ) :
    Nat → List (List ℚ) → Except String (List SpikeCutout)
  | _, [] => Except.ok []
  | i, raw :: rest =>
    match pyIndex labs i with
    | Except.error e => Except.error e
    | Except.ok lab =>
      match pyIndex spks i with
      | Except.error e => Except.error e
      | Except.ok t =>
        match SpikeCutout.construct4 raw samp lab t with
        | Except.error e => Except.error e
        | Except.ok sc =>
          match buildChannelAux samp labs spks (i + 1) rest with
          | Except.error e => Except.error e
          | Except.ok tail => Except.ok (sc :: tail)

/-- The channel loop of `AbnormalityDetector._get_cutouts`
(abnormality_detection.py lines 89-126), processing the given channel
indices in order.  A channel with at least `rank`
(= `extractor_decomposition_parameter`) detected spikes gets its cutouts
built; any other channel is recorded as skipped and represented by an empty
`ChannelSpikeCutout`.  Both constructors pass `categorization_list = None`,
so `categorized = False` and the list is `np.zeros(num_components)`
(cutout.py lines 63-68).  Returns `(skipped_channels, exp_cutouts)`. -/
def getCutoutsAux (rank : Nat) (spikes : Nat → List ℚ)
    (raws : Nat → List (List ℚ)) (labs : Nat → List Nat) (samp : ℚ) :
    List Nat → Except String (List Nat × List ChannelSpikeCutout)
  | [] => Except.ok ([], [])
  | chan :: rest =>
    if rank ≤ (spikes chan).length then
      match buildChannelAux samp (labs chan) (spikes chan) 0 (raws chan) with
      | Except.error e => Except.error e
      | Except.ok ccl =>
        match getCutoutsAux rank spikes raws labs samp rest with
        | Except.error e => Except.error e
        | Except.ok (sk, out) =>
          Except.ok (sk, ⟨ccl, rank, chan, false, List.replicate rank 0⟩ :: out)
    else
      match getCutoutsAux rank spikes raws labs samp rest with
      | Except.error e => Except.error e
      | Except.ok (sk, out) =>
        Except.ok (chan :: sk, ⟨[], rank, chan, false, List.replicate rank 0⟩ :: out)

/-- `AbnormalityDetector._get_cutouts` (abnormality_detection.py lines 75-127)
over the results of the external collaborators: per-channel detected spike
times `spikes`, per-channel extracted waveforms `raws`, per-channel projection
labels `labs`, sampling rate `samp`, and `numChannels = sig.shape[1]`. -/
def getCutouts (rank numChannels : Nat) (spikes : Nat → List ℚ)
    (raws : Nat → List (List ℚ)) (labs : Nat → List Nat) (samp : ℚ) :
    Except String (List Nat × List ChannelSpikeCutout) :=
  getCutoutsAux rank spikes raws labs samp (List.range numChannels)

/-- The mutable state of an `AbnormalityDetector`
(abnormality_detection.py lines 44-73). -/
structure DetectorState where
  spontaneous_cutouts : List ChannelSpikeCutout
  skipped_channels : List Nat
  trained : Bool
  categorized : Bool
  model_size : Nat
  test_cutouts : List (List ℚ)
  test_labels : List ℤ
  extractor_decomposition_parameter : Nat
deriving Repr

/-- One step of the loop of `categorize_spontaneous`
(abnormality_detection.py line 144):
`self.spontaneous_cutouts[chan_index].categorize(np.array(chan_row))`,
an in-place update of element `chan_index`; IndexError when the row index
exceeds the available channels. -/
def categorizeAt (cs : List ChannelSpikeCutout) (i : Nat) (row : List ℤ) :
    Except String (List ChannelSpikeCutout) :=
  match cs[i]? with
  | some c => Except.ok (cs.set i (c.categorize row))
  | none => Except.error IndexErrorMsg

/-- The loop of `categorize_spontaneous` over the enumerated rows
(abnormality_detection.py lines 143-144). -/
def categorizeSpontaneousAux :
    List ChannelSpikeCutout → Nat → List (List ℤ) →
    Except String (List ChannelSpikeCutout)
  | cs, _, [] => Except.ok cs
  | cs, i, row :: rest =>
    match categorizeAt cs i row with
    | Except.error e => Except.error e
    | Except.ok cs2 => categorizeSpontaneousAux cs2 (i + 1) rest

/-- `AbnormalityDetector.categorize_spontaneous`
(abnormality_detection.py lines 129-145): apply each row to its channel,
then set the detector-level `categorized` flag. -/
def categorize_spontaneous (s : DetectorState) (L : List (List ℤ)) :
    Except String DetectorState :=
  match categorizeSpontaneousAux s.spontaneous_cutouts 0 L with
  | Except.error e => Except.error e
  | Except.ok cs => Except.ok { s with spontaneous_cutouts := cs, categorized := true }

/-- The inner loop of `train_model` over one channel
(abnormality_detection.py lines 168-174): for each (index, label) of the
labeled cutouts, look up the cutout at that index and apply `list(...)`
to the `SpikeCutout` object. -/
def gatherChannelRows (cuts : List SpikeCutout) :
    Nat → List ℤ → Except String (List (List ℚ))
  | _, [] => Except.ok []
  | i, _lab :: rest =>
    match pyIndex cuts i with
    | Except.error e => Except.error e
    | Except.ok sc =>
      match pyListSpikeCutout sc with
      | Except.error e => Except.error e
      | Except.ok row =>
        match gatherChannelRows cuts (i + 1) rest with
        | Except.error e => Except.error e
        | Except.ok tail => Except.ok (row :: tail)

/-- The gathering phase of `train_model`
(abnormality_detection.py lines 162-175): flatten every channel's labeled
cutouts into one pool of rows and labels, accumulating `model_size`. -/
def gatherLabeled : List ChannelSpikeCutout →
    Except String (List (List ℚ) × List ℤ × Nat)
  | [] => Except.ok ([], [], 0)
  | c :: rest =>
    match c.get_labeled_cutouts with
    | none => Except.error IndexErrorMsg
    | some clc =>
      match gatherChannelRows clc.labeled_cutouts 0 clc.labels with
      | Except.error e => Except.error e
      | Except.ok rows =>
        match gatherLabeled rest with
        | Except.error e => Except.error e
        | Except.ok (rrows, rlabs, rsize) =>
          Except.ok (rows ++ rrows, clc.labels ++ rlabs, clc.size + rsize)

/-- `AbnormalityDetector.train_model` (abnormality_detection.py lines 147-198).
`sh` is the `sklearn.utils.shuffle` collaborator acting on the pooled rows and
labels; `modelGiven` tells whether a model was passed (otherwise the default
model construction reads `labeled_cutouts[1]` and
`spontaneous_cutouts[0].cutouts[0]`, lines 186-192).  The split index
`int(self.model_size * 0.8)` is `model_size * 4 / 5` in exact arithmetic:
for `n` a multiple of 5 the double product `n * 0.8` is at least the exact
integer and truncation returns it, and otherwise the fractional part is at
least 0.2, far beyond the rounding error, so `int` truncation equals the
exact floor. -/
def train_model (s : DetectorState)
    (sh : List (List ℚ) × List ℤ → List (List ℚ) × List ℤ)
    (modelGiven : Bool) : Except String DetectorState :=
  match gatherLabeled s.spontaneous_cutouts with
  | Except.error e => Except.error e
  | Except.ok (rows, labsAndSize) =>
    match labsAndSize with
    | (labs, msize) =>
      match sh (rows, labs) with
      | (rows2, labs2) =>
        let split := msize * 4 / 5
        let tc := rows2.drop split
        let tl := labs2.drop split
        if modelGiven then
          Except.ok { s with model_size := msize, test_cutouts := tc,
                             test_labels := tl, trained := true }
        else
          match pyIndex rows2 1 with
          | Except.error e => Except.error e
          | Except.ok _ =>
            match pyIndex s.spontaneous_cutouts 0 with
            | Except.error e => Except.error e
            | Except.ok c0 =>
              match pyIndex c0.cutouts 0 with
              | Except.error e => Except.error e
              | Except.ok _ =>
                Except.ok { s with model_size := msize, test_cutouts := tc,
                                   test_labels := tl, trained := true }

/-- The return value of the neo `SpikeTrain(times, t_stop, pq.s)` constructor
as used in abnormality_detection.py lines 297 and 363. -/
structure SpikeTrainV where
  times : List ℚ
  t_stop : ℚ
deriving DecidableEq, Repr

/-- The per-channel loop body of `get_only_neuronal_spikes`
(abnormality_detection.py lines 288-296): `pred0` is the opaque composite
`prob_model.predict(np.array([cutout]))[0][0]` — the softmax probability the
trained classifier reports at output index 0 (the neuronal category) for one
cutout.  State `(times, t_stop)` starts at `([], 0)`; a cutout is kept when
its probability is at least the accuracy threshold. -/
def neuronalChannelAux (pred0 : List ℚ → ℚ) (thr : ℚ) :
    List ℚ → ℚ → List SpikeCutout → List ℚ × ℚ
  | ts, t, [] => (ts, t)
  | ts, t, sc :: rest =>
    if pred0 sc.cutout ≥ thr then
      neuronalChannelAux pred0 thr (ts ++ [sc.time]) sc.time rest
    else
      neuronalChannelAux pred0 thr ts t rest

/-- One channel of `get_only_neuronal_spikes`
(abnormality_detection.py lines 288-297). -/
def neuronalChannel (pred0 : List ℚ → ℚ) (thr : ℚ)
    (ch : ChannelSpikeCutout) : SpikeTrainV :=
  match neuronalChannelAux pred0 thr [] 0 ch.cutouts with
  | (ts, t) => ⟨ts, t⟩

/-- `AbnormalityDetector.get_only_neuronal_spikes`
(abnormality_detection.py lines 244-299): raise when untrained, otherwise
re-run cutout extraction on the experiment data and threshold every cutout. -/
def get_only_neuronal_spikes (s : DetectorState) (pred0 : List ℚ → ℚ)
    (thr : ℚ) (numChannels : Nat) (spikes : Nat → List ℚ)
    (raws : Nat → List (List ℚ)) (labs : Nat → List Nat) (samp : ℚ) :
    Except String (List SpikeTrainV) :=
  if s.trained = false then Except.error untrainedMsg
  else
    match getCutouts s.extractor_decomposition_parameter numChannels
        spikes raws labs samp with
    | Except.error e => Except.error e
    | Except.ok (_, chans) => Except.ok (chans.map (neuronalChannel pred0 thr))

/-- The loading loop `for cutout_index, spike_cutout in comp_cutouts`
of `get_only_neuronal_components` (abnormality_detection.py lines 352-353):
each element is unpacked into a pair via `pyUnpack2`. -/
def loadComp : List SpikeCutout → Except String (List (List ℚ))
  | [] => Except.ok []
  | sc :: rest =>
    match pyUnpack2 sc with
    | Except.error e => Except.error e
    | Except.ok (_, sc2) =>
      match loadComp rest with
      | Except.error e => Except.error e
      | Except.ok tail => Except.ok (sc2.cutout :: tail)

/-- The keeping loop `for cutout_index, spike_cutout in comp_cutouts`
of `get_only_neuronal_components` (abnormality_detection.py lines 359-360). -/
def collectCompTimes : List SpikeCutout → Except String (List ℚ)
  | [] => Except.ok []
  | sc :: rest =>
    match pyUnpack2 sc with
    | Except.error e => Except.error e
    | Except.ok (_, sc2) =>
      match collectCompTimes rest with
      | Except.error e => Except.error e
      | Except.ok tail => Except.ok (sc2.time :: tail)

/-- The component loop of `get_only_neuronal_components`
(abnormality_detection.py lines 349-360): load the cutouts of each component,
take the mean waveform (`npMean` embeds `np.mean(..., axis=0)`), score it
once (`pred0c` embeds `prob_model.predict(mean)[0]` compared with the
threshold), and on success append every spike time of the component. -/
def componentsChannelAux (pred0c : List ℚ → ℚ) (thr : ℚ)
    (npMean : List (List ℚ) → List ℚ) :
    List ℚ → List (List SpikeCutout) → Except String (List ℚ)
  | acc, [] => Except.ok acc
  | acc, comp :: rest =>
    match loadComp comp with
    | Except.error e => Except.error e
    | Except.ok loaded =>
      if pred0c (npMean loaded) ≥ thr then
        match collectCompTimes comp with
        | Except.error e => Except.error e
        | Except.ok ts => componentsChannelAux pred0c thr npMean (acc ++ ts) rest
      else
        componentsChannelAux pred0c thr npMean acc rest

/-- One channel of `get_only_neuronal_components`
(abnormality_detection.py lines 345-363): group by component, process every
component, and close the spike train with
`t_stop = 0 if not channel_times else channel_times[-1]` (line 362). -/
def componentsChannel (pred0c : List ℚ → ℚ) (thr : ℚ)
    (npMean : List (List ℚ) → List ℚ) (ch : ChannelSpikeCutout) :
    Except String SpikeTrainV :=
  match ch.get_cutouts_by_component with
  | Except.error e => Except.error e
  | Except.ok comps =>
    match componentsChannelAux pred0c thr npMean [] comps with
    | Except.error e => Except.error e
    | Except.ok times => Except.ok ⟨times, times.getLastD 0⟩

/-- The channel loop of `get_only_neuronal_components`
(abnormality_detection.py lines 345-363). -/
def componentsChannels (pred0c : List ℚ → ℚ) (thr : ℚ)
    (npMean : List (List ℚ) → List ℚ) :
    List ChannelSpikeCutout → Except String (List SpikeTrainV)
  | [] => Except.ok []
  | ch :: rest =>
    match componentsChannel pred0c thr npMean ch with
    | Except.error e => Except.error e
    | Except.ok st =>
      match componentsChannels pred0c thr npMean rest with
      | Except.error e => Except.error e
      | Except.ok sts => Except.ok (st :: sts)

/-- `AbnormalityDetector.get_only_neuronal_components`
(abnormality_detection.py lines 301-365). -/
def get_only_neuronal_components (s : DetectorState) (pred0c : List ℚ → ℚ)
    (thr : ℚ) (npMean : List (List ℚ) → List ℚ) (numChannels : Nat)
    (spikes : Nat → List ℚ) (raws : Nat → List (List ℚ))
    (labs : Nat → List Nat) (samp : ℚ) : Except String (List SpikeTrainV) :=
  if s.trained = false then Except.error untrainedMsg
  else
    match getCutouts s.extractor_decomposition_parameter numChannels
        spikes raws labs samp with
    | Except.error e => Except.error e
    | Except.ok (_, chans) => componentsChannels pred0c thr npMean chans

/-- The truth value of a 2D numpy float array, as evaluated by
`test_cutouts if test_cutouts else self.test_cutouts`
(abnormality_detection.py line 225): an array with one element is truthy when
that element is nonzero, an empty array is falsy, and any array with more
than one element raises ValueError (ambiguous truth value). -/
def npTruthQ (rows : List (List ℚ)) : Except String Bool :=
  match rows.flatten with
  | [] => Except.ok false
  | [x] => Except.ok (decide (x ≠ 0))
  | _ :: _ :: _ => Except.error ValueErrorMsg

/-- The truth value of a 1D numpy integer array, as evaluated by
`test_labels if test_labels else self.test_labels`
(abnormality_detection.py line 226). -/
def npTruthZ (l : List ℤ) : Except String Bool :=
  match l with
  | [] => Except.ok false
  | [x] => Except.ok (decide (x ≠ 0))
  | _ :: _ :: _ => Except.error ValueErrorMsg

/-- The dictionary returned by `AbnormalityDetector.evaluate_model`
(abnormality_detection.py lines 223 and 229). -/
structure EvalResult where
  test_loss : ℚ
  test_accuracy : ℚ
deriving DecidableEq, Repr

/-- `AbnormalityDetector.evaluate_model`
(abnormality_detection.py lines 200-229): the sentinel result when untrained;
otherwise pick the data via the numpy truthiness of the optional arguments
and run the opaque `model.evaluate` collaborator `ev`. -/
def evaluate_model (s : DetectorState)
    (ev : List (List ℚ) → List ℤ → ℚ × ℚ)
    (test_cutouts : Option (List (List ℚ))) (test_labels : Option (List ℤ)) :
    Except String EvalResult :=
  if s.trained = false then Except.ok ⟨1, 0⟩
  else
    match (match test_cutouts with
           | none => Except.ok s.test_cutouts
           | some a =>
             match npTruthQ a with
             | Except.error e => Except.error e
             | Except.ok b => Except.ok (if b then a else s.test_cutouts)) with
    | Except.error e => Except.error e
    | Except.ok data =>
      match (match test_labels with
             | none => Except.ok s.test_labels
             | some l =>
               match npTruthZ l with
               | Except.error e => Except.error e
               | Except.ok b => Except.ok (if b then l else s.test_labels)) with
      | Except.error e => Except.error e
      | Except.ok labels =>
        match ev data labels with
        | (loss, acc) => Except.ok ⟨loss, acc⟩

/-- The default value of the `accuracy_threshold` parameter of both inference
methods (abnormality_detection.py lines 247 and 304). -/
def accuracy_threshold_default : ℚ := 9 / 10

/-- A fresh channel with rank 3 and no cutouts, as built by the skipped-channel
branch of `_get_cutouts`. -/
def chanEmpty3 : ChannelSpikeCutout := ⟨[], 3, 0, false, List.replicate 3 0⟩

/-- A cutout with an assigned component index and a spike time, for the
concrete scenarios. -/
def mkCutout (comp : Nat) (t : ℚ) : SpikeCutout := ⟨[1, 2], 1, comp, t⟩

/-- The channel of the end-to-end scenario: 5 spikes assigned components
`[0, 0, 1, 1, 1]` over 2 components, then categorized as `[1, 2]`. -/
def chanScenario : ChannelSpikeCutout :=
  ChannelSpikeCutout.categorize
    ⟨[mkCutout 0 0, mkCutout 0 1, mkCutout 1 2, mkCutout 1 3, mkCutout 1 4],
     2, 0, false, List.replicate 2 0⟩ [1, 2]

/-- A categorized channel holding a single cutout (component 0, rank 1). -/
def chanOne : ChannelSpikeCutout := ⟨[mkCutout 0 5], 1, 0, true, [1]⟩

/-- A detector state that has not been trained. -/
def detUntrained : DetectorState := ⟨[], [], false, false, 0, [], [], 3⟩

/-- A detector state whose `trained` flag is set, with rank 1. -/
def detTrained : DetectorState := ⟨[], [], true, false, 0, [], [], 1⟩

/-- A detector state holding one categorized channel with one cutout,
ready for `train_model`. -/
def detCat : DetectorState := ⟨[chanOne], [], false, true, 0, [], [], 1⟩

/-- A detector state with zero channels (its spontaneous recording produced
an empty channel list). -/
def detNoChannels : DetectorState := ⟨[], [], false, false, 0, [], [], 3⟩

/-- A trivial stand-in for the opaque `model.evaluate` collaborator. -/
def evZero : List (List ℚ) → List ℤ → ℚ × ℚ := fun _ _ => (0, 0)

/-- A detector state holding exactly one (empty, rank-3) channel. -/
def detOneChan : DetectorState := ⟨[chanEmpty3], [], false, false, 0, [], [], 3⟩

theorem pyIndex_error_msg {α : Type} (l : List α) (i : Nat) (e : String)
    (h : pyIndex l i = Except.error e) : e = IndexErrorMsg := by
  unfold pyIndex at h
  cases hl : l[i]? with
  | none => rw [hl] at h; exact (Except.error.injEq _ _).mp h.symm
  | some v => rw [hl] at h; exact absurd h (by simp)

theorem construct4_eq (c : List ℚ) (samp : ℚ) (lab : Nat) (t : ℚ) :
    SpikeCutout.construct4 c samp lab t = Except.error TypeErrorMsg := rfl

theorem buildChannelAux_error (samp : ℚ) (labs : List Nat) (spks : List ℚ) :
    ∀ (raws : List (List ℚ)) (i : Nat) (e : String),
      buildChannelAux samp labs spks i raws = Except.error e →
      e = IndexErrorMsg ∨ e = TypeErrorMsg := by
  intro raws i e h
  cases raws with
  | nil => exact absurd h (by simp [buildChannelAux])
  | cons raw rest =>
    unfold buildChannelAux at h
    split at h
    next e1 h1 =>
      injection h with he
      exact Or.inl (he ▸ pyIndex_error_msg _ _ _ h1)
    next lab h1 =>
      split at h
      next e2 h2 =>
        injection h with he
        exact Or.inl (he ▸ pyIndex_error_msg _ _ _ h2)
      next t h2 =>
        split at h
        next e3 h3 =>
          rw [construct4_eq] at h3
          injection h3 with he3
          injection h with he
          exact Or.inr (he ▸ he3.symm)
        next sc h3 =>
          rw [construct4_eq] at h3
          exact absurd h3 (by simp)

theorem getCutoutsAux_error (rank : Nat) (spikes : Nat → List ℚ)
    (raws : Nat → List (List ℚ)) (labs : Nat → List Nat) (samp : ℚ) :
    ∀ (chs : List Nat) (e : String),
      getCutoutsAux rank spikes raws labs samp chs = Except.error e →
      e = IndexErrorMsg ∨ e = TypeErrorMsg := by
  intro chs
  induction chs with
  | nil => intro e h; exact absurd h (by simp [getCutoutsAux])
  | cons chan rest ih =>
    intro e h
    unfold getCutoutsAux at h
    split at h
    · split at h
      next e1 h1 =>
        injection h with he
        exact he ▸ buildChannelAux_error samp (labs chan) (spikes chan)
          (raws chan) 0 e1 h1
      next ccl h1 =>
        split at h
        next e2 h2 =>
          injection h with he
          exact he ▸ ih e2 h2
        next pr h2 =>
          exact Except.noConfusion h
    · split at h
      next e2 h2 =>
        injection h with he
        exact he ▸ ih e2 h2
      next pr h2 =>
        exact Except.noConfusion h

theorem getCutouts_error (rank numChannels : Nat) (spikes : Nat → List ℚ)
    (raws : Nat → List (List ℚ)) (labs : Nat → List Nat) (samp : ℚ)
    (e : String)
    (h : getCutouts rank numChannels spikes raws labs samp = Except.error e) :
    e = IndexErrorMsg ∨ e = TypeErrorMsg :=
  getCutoutsAux_error rank spikes raws labs samp (List.range numChannels) e h

theorem loadComp_error (l : List SpikeCutout) (e : String)
    (h : loadComp l = Except.error e) : e = TypeErrorMsg := by
  cases l with
  | nil => exact absurd h (by simp [loadComp])
  | cons sc rest =>
    have hl : loadComp (sc :: rest) = Except.error TypeErrorMsg := rfl
    rw [hl] at h
    injection h with he
    exact he.symm

theorem collectCompTimes_error (l : List SpikeCutout) (e : String)
    (h : collectCompTimes l = Except.error e) : e = TypeErrorMsg := by
  cases l with
  | nil => exact absurd h (by simp [collectCompTimes])
  | cons sc rest =>
    have hl : collectCompTimes (sc :: rest) = Except.error TypeErrorMsg := rfl
    rw [hl] at h
    injection h with he
    exact he.symm

theorem groupAux_error :
    ∀ (l : List SpikeCutout) (comps : List (List SpikeCutout)) (e : String),
      groupAux comps l = Except.error e → e = IndexErrorMsg := by
  intro l
  induction l with
  | nil => intro comps e h; exact absurd h (by simp [groupAux])
  | cons sc rest ih =>
    intro comps e h
    unfold groupAux at h
    split at h
    next comps2 h1 => exact ih comps2 e h
    next h1 =>
      injection h with he
      exact he.symm

theorem componentsChannelAux_error (pred0c : List ℚ → ℚ) (thr : ℚ)
    (npMean : List (List ℚ) → List ℚ) :
    ∀ (comps : List (List SpikeCutout)) (acc : List ℚ) (e : String),
      componentsChannelAux pred0c thr npMean acc comps = Except.error e →
      e = TypeErrorMsg := by
  intro comps
  induction comps with
  | nil => intro acc e h; exact absurd h (by simp [componentsChannelAux])
  | cons comp rest ih =>
    intro acc e h
    unfold componentsChannelAux at h
    split at h
    next e1 h1 =>
      injection h with he
      exact he ▸ loadComp_error comp e1 h1
    next loaded h1 =>
      split at h
      · split at h
        next e2 h2 =>
          injection h with he
          exact he ▸ collectCompTimes_error comp e2 h2
        next ts h2 => exact ih _ e h
      · exact ih _ e h

theorem componentsChannel_error (pred0c : List ℚ → ℚ) (thr : ℚ)
    (npMean : List (List ℚ) → List ℚ) (ch : ChannelSpikeCutout) (e : String)
    (h : componentsChannel pred0c thr npMean ch = Except.error e) :
    e = IndexErrorMsg ∨ e = TypeErrorMsg := by
  unfold componentsChannel at h
  split at h
  next e1 h1 =>
    injection h with he
    exact Or.inl (he ▸ groupAux_error _ _ _ h1)
  next comps h1 =>
    split at h
    next e2 h2 =>
      injection h with he
      exact Or.inr (he ▸ componentsChannelAux_error _ _ _ _ _ _ h2)
    next ts h2 => exact Except.noConfusion h

theorem componentsChannels_error (pred0c : List ℚ → ℚ) (thr : ℚ)
    (npMean : List (List ℚ) → List ℚ) :
    ∀ (chans : List ChannelSpikeCutout) (e : String),
      componentsChannels pred0c thr npMean chans = Except.error e →
      e = IndexErrorMsg ∨ e = TypeErrorMsg := by
  intro chans
  induction chans with
  | nil => intro e h; exact absurd h (by simp [componentsChannels])
  | cons ch rest ih =>
    intro e h
    unfold componentsChannels at h
    split at h
    next e1 h1 =>
      injection h with he
      exact he ▸ componentsChannel_error _ _ _ _ _ h1
    next st h1 =>
      split at h
      next e2 h2 =>
        injection h with he
        exact he ▸ ih e2 h2
      next sts h2 => exact Except.noConfusion h

theorem labelsOf_eq (cl : List ℤ) :
    ∀ (l : List SpikeCutout), (∀ sc ∈ l, sc.pca_comp_index < cl.length) →
      labelsOf cl l = some (l.map fun sc => (cl[sc.pca_comp_index]?).getD 0) := by
  intro l
  induction l with
  | nil => intro _; rfl
  | cons sc rest ih =>
    intro h
    have h1 : sc.pca_comp_index < cl.length := h sc (List.mem_cons_self _ _)
    have h2 := ih (fun x hx => h x (List.mem_cons_of_mem _ hx))
    unfold labelsOf
    rw [List.getElem?_eq_getElem h1, h2]
    simp [List.getElem?_eq_getElem h1]

/-- Claim C1: `ChannelSpikeCutout.categorize` with a list of length at least
`num_components` installs the list and sets `categorized`; with a shorter
list it resets `categorization_list` to `num_components` zeros and clears
`categorized`, regardless of content; and a second call fully replaces the
state left by a first call. -/
theorem categorize_spec :
    ∀ (c : ChannelSpikeCutout) (L : List ℤ),
      (c.num_components ≤ L.length →
        (c.categorize L).categorization_list = L ∧
        (c.categorize L).categorized = true) ∧
      (L.length < c.num_components →
        (c.categorize L).categorization_list =
          List.replicate c.num_components 0 ∧
        (c.categorize L).categorized = false) ∧
      (∀ L2 : List ℤ, (c.categorize L).categorize L2 = c.categorize L2) := by
  intro c L
  refine ⟨fun h => ?_, fun h => ?_, fun L2 => ?_⟩
  · unfold ChannelSpikeCutout.categorize
    rw [if_neg (by omega)]
    exact ⟨rfl, rfl⟩
  · unfold ChannelSpikeCutout.categorize
    rw [if_pos h]
    exact ⟨rfl, rfl⟩
  · cases c with
    | mk cuts nc ci cat cl =>
      unfold ChannelSpikeCutout.categorize
      by_cases hL : L.length < nc <;> by_cases hL2 : L2.length < nc <;>
        simp [hL, hL2]

/-- Claim C1 witness: the two branches and the replacement property of
`categorize` evaluated on a concrete channel with rank 3. -/
theorem categorize_spec_witness :
    ((chanEmpty3.categorize [1, 2, 3]).categorization_list = [1, 2, 3] ∧
     (chanEmpty3.categorize [1, 2, 3]).categorized = true) ∧
    ((chanEmpty3.categorize [1]).categorization_list =
       List.replicate 3 0 ∧
     (chanEmpty3.categorize [1]).categorized = false) ∧
    (chanEmpty3.categorize [1]).categorize [1, 2, 3] =
      chanEmpty3.categorize [1, 2, 3] :=
  ⟨(categorize_spec chanEmpty3 [1, 2, 3]).1 (by decide),
   ⟨(categorize_spec chanEmpty3 [1]).2.1 (by decide),
    (categorize_spec chanEmpty3 [1]).2.2 [1, 2, 3]⟩⟩

/-- Claim C2: when `categorized` is set, `get_labeled_cutouts` returns one
entry per cutout in original cutout order, each labeled with the category of
its assigned component, with `size` equal to the number of cutouts; when not
categorized it returns empty labels, empty cutouts and size 0.  In
particular, 5 spikes on components `[0, 0, 1, 1, 1]` categorized `[1, 2]`
yield labels `[1, 1, 2, 2, 2]`. -/
theorem get_labeled_cutouts_spec :
    (∀ c : ChannelSpikeCutout,
      (c.categorized = true →
        (∀ sc ∈ c.cutouts,
          sc.pca_comp_index < c.categorization_list.length) →
        c.get_labeled_cutouts =
          some ⟨c.cutouts.map
                  (fun sc => (c.categorization_list[sc.pca_comp_index]?).getD 0),
                c.cutouts, c.cutouts.length⟩) ∧
      (c.categorized = false → c.get_labeled_cutouts = some ⟨[], [], 0⟩)) ∧
    chanScenario.get_labeled_cutouts =
      some ⟨[1, 1, 2, 2, 2], chanScenario.cutouts, 5⟩ := by
  refine ⟨fun c => ⟨fun hc hin => ?_, fun hc => ?_⟩, ?_⟩
  · unfold ChannelSpikeCutout.get_labeled_cutouts
    rw [hc, labelsOf_eq c.categorization_list c.cutouts hin]
    rfl
  · unfold ChannelSpikeCutout.get_labeled_cutouts
    rw [hc]
    rfl
  · rfl

/-- Claim C2 witness: the general part of `get_labeled_cutouts_spec` applied
to the concrete 5-spike scenario channel. -/
theorem get_labeled_cutouts_spec_witness :
    chanScenario.get_labeled_cutouts =
      some ⟨chanScenario.cutouts.map
              (fun sc =>
                (chanScenario.categorization_list[sc.pca_comp_index]?).getD 0),
            chanScenario.cutouts, chanScenario.cutouts.length⟩ :=
  (get_labeled_cutouts_spec.1 chanScenario).1 (by decide) (by decide)

theorem categorizeSpontaneousAux_ok :
    ∀ (L : List (List ℤ)) (cs : List ChannelSpikeCutout) (i : Nat),
      i + L.length ≤ cs.length →
      ∃ cs2, categorizeSpontaneousAux cs i L = Except.ok cs2 ∧
        cs2.length = cs.length := by
  intro L
  induction L with
  | nil => intro cs i h; exact ⟨cs, rfl, rfl⟩
  | cons row rest ih =>
    intro cs i h
    have hi : i < cs.length := by
      simp only [List.length_cons] at h; omega
    unfold categorizeSpontaneousAux categorizeAt
    rw [List.getElem?_eq_getElem hi]
    have h2 : (i + 1) + rest.length ≤
        (cs.set i (cs[i].categorize row)).length := by
      rw [List.length_set]; simp only [List.length_cons] at h; omega
    obtain ⟨cs2, hcs2, hlen⟩ := ih _ (i + 1) h2
    exact ⟨cs2, hcs2, by rw [hlen, List.length_set]⟩

/-- Claim C3 (code-bug evidence): `SpikeCutout.__init__` binds exactly the
three parameters `cutout`, `sampling_rate`, `pca_comp_index` and none called
`time`, so the four-positional-argument constructor call made for every
detected spike in `_get_cutouts` raises TypeError instead of producing a
cutout that carries the spike time. -/
theorem spikeCutout_time_mismatch :
    SpikeCutout.construct4 [1, 2] 1 0 (1 / 2) = Except.error TypeErrorMsg ∧
    "time" ∉ SpikeCutout.initParams ∧
    SpikeCutout.initParams.length = 3 :=
  ⟨rfl, by decide, rfl⟩

/-- Claim C4 (code-bug evidence): on a detector whose spontaneous cutouts
hold one categorized channel with one cutout, `train_model` raises TypeError
at `list(channel_labeled_cutouts["labeled_cutouts"][spike_index])` (line 173,
`SpikeCutout` is not iterable) instead of returning with the claimed
`model_size` and 80/20 split. -/
theorem train_model_raises :
    train_model detCat id true = Except.error TypeErrorMsg := rfl

/-- Claim C5: with `trained = False` both inference methods raise exactly the
untrained-model error, for every input; with `trained = True` neither ever
raises that error (they proceed past the gate). -/
theorem inference_requires_training :
    ∀ (s : DetectorState) (pred0 pred0c : List ℚ → ℚ) (thr : ℚ)
      (npMean : List (List ℚ) → List ℚ) (nc : Nat) (spikes : Nat → List ℚ)
      (raws : Nat → List (List ℚ)) (labs : Nat → List Nat) (samp : ℚ),
      (s.trained = false →
        get_only_neuronal_spikes s pred0 thr nc spikes raws labs samp =
          Except.error untrainedMsg ∧
        get_only_neuronal_components s pred0c thr npMean nc spikes raws labs
            samp = Except.error untrainedMsg) ∧
      (s.trained = true →
        get_only_neuronal_spikes s pred0 thr nc spikes raws labs samp ≠
          Except.error untrainedMsg ∧
        get_only_neuronal_components s pred0c thr npMean nc spikes raws labs
            samp ≠ Except.error untrainedMsg) := by
  intro s pred0 pred0c thr npMean nc spikes raws labs samp
  constructor
  · intro h
    constructor
    · unfold get_only_neuronal_spikes
      rw [h]
      rfl
    · unfold get_only_neuronal_components
      rw [h]
      rfl
  · intro h
    constructor
    · unfold get_only_neuronal_spikes
      rw [h, if_neg (by simp)]
      cases hg : getCutouts s.extractor_decomposition_parameter nc spikes
          raws labs samp with
      | error e =>
        show Except.error e ≠ Except.error untrainedMsg
        intro hc
        injection hc with he
        rcases getCutouts_error _ _ _ _ _ _ _ hg with h1 | h1 <;>
          · rw [h1] at he
            exact absurd he (by decide)
      | ok pr =>
        obtain ⟨sk, chans⟩ := pr
        show Except.ok (chans.map (neuronalChannel pred0 thr)) ≠
          Except.error untrainedMsg
        exact fun hc => Except.noConfusion hc
    · unfold get_only_neuronal_components
      rw [h, if_neg (by simp)]
      cases hg : getCutouts s.extractor_decomposition_parameter nc spikes
          raws labs samp with
      | error e =>
        show Except.error e ≠ Except.error untrainedMsg
        intro hc
        injection hc with he
        rcases getCutouts_error _ _ _ _ _ _ _ hg with h1 | h1 <;>
          · rw [h1] at he
            exact absurd he (by decide)
      | ok pr =>
        obtain ⟨sk, chans⟩ := pr
        show componentsChannels pred0c thr npMean chans ≠
          Except.error untrainedMsg
        cases hcc : componentsChannels pred0c thr npMean chans with
        | error e =>
          intro hc
          injection hc with he
          rcases componentsChannels_error _ _ _ _ _ hcc with h1 | h1 <;>
            · rw [h1] at he
              exact absurd he (by decide)
        | ok sts =>
          exact fun hc => Except.noConfusion hc

/-- Claim C5 witness: both inference methods on a concrete untrained detector
return exactly the untrained-model error. -/
theorem inference_requires_training_witness :
    get_only_neuronal_spikes detUntrained (fun _ => 1)
        accuracy_threshold_default 0 (fun _ => []) (fun _ => [])
        (fun _ => []) 1 = Except.error untrainedMsg ∧
    get_only_neuronal_components detUntrained (fun _ => 1)
        accuracy_threshold_default (fun _ => []) 0 (fun _ => [])
        (fun _ => []) (fun _ => []) 1 = Except.error untrainedMsg :=
  (inference_requires_training detUntrained (fun _ => 1) (fun _ => 1)
    accuracy_threshold_default (fun _ => []) 0 (fun _ => [])
    (fun _ => []) (fun _ => []) 1).1 rfl

/-- Claim C6 (code-bug evidence): when every channel is skipped the channel
loop does emit one placeholder `ChannelSpikeCutout` per channel in channel
order with `channel_index = i` and records the skipped channels; but on any
data source with a non-skipped channel holding a waveform (here: one channel,
one detected spike, rank 1) `_get_cutouts` raises TypeError from the
`SpikeCutout` constructor call, so no aligned output is produced. -/
theorem getCutouts_alignment_and_failure :
    getCutouts 3 2 (fun _ => [0]) (fun _ => []) (fun _ => []) 1 =
      Except.ok ([0, 1],
        [⟨[], 3, 0, false, List.replicate 3 0⟩,
         ⟨[], 3, 1, false, List.replicate 3 0⟩]) ∧
    getCutouts 1 1 (fun _ => [0]) (fun _ => [[1]]) (fun _ => [0]) 1 =
      Except.error TypeErrorMsg :=
  ⟨rfl, rfl⟩

/-- Claim C7 (code-bug evidence): on a trained detector,
`get_only_neuronal_spikes` over experiment data with one detected spike never
reaches the scoring loop — it raises TypeError during cutout extraction — so
no cutout is ever scored against the threshold. -/
theorem get_only_neuronal_spikes_raises :
    get_only_neuronal_spikes detTrained (fun _ => 1)
        accuracy_threshold_default 1 (fun _ => [0]) (fun _ => [[1]])
        (fun _ => [0]) 1 = Except.error TypeErrorMsg := rfl

/-- Claim C8 (code-bug evidence): the per-channel component loop of
`get_only_neuronal_components` raises TypeError on any channel with a
non-empty component, because line 352 unpacks each `SpikeCutout` of
`comp_cutouts` as a pair without `enumerate`; and the full method on a
trained detector already raises TypeError during cutout re-extraction. -/
theorem get_only_neuronal_components_raises :
    componentsChannel (fun _ => 1) accuracy_threshold_default (fun _ => [])
        chanOne = Except.error TypeErrorMsg ∧
    get_only_neuronal_components detTrained (fun _ => 1)
        accuracy_threshold_default (fun _ => []) 1 (fun _ => [0])
        (fun _ => [[1]]) (fun _ => [0]) 1 = Except.error TypeErrorMsg :=
  ⟨rfl, rfl⟩

/-- Claim C9: before training, `evaluate_model` returns exactly the sentinel
`test_loss = 1`, `test_accuracy = 0` without raising; but after training
(code-bug evidence) passing a caller-supplied multi-element test array raises
ValueError at `test_cutouts if test_cutouts else self.test_cutouts`, the
ambiguous numpy array truth value, instead of evaluating on that data. -/
theorem evaluate_model_spec :
    (∀ (s : DetectorState) (ev : List (List ℚ) → List ℤ → ℚ × ℚ)
       (tc : Option (List (List ℚ))) (tl : Option (List ℤ)),
       s.trained = false → evaluate_model s ev tc tl = Except.ok ⟨1, 0⟩) ∧
    evaluate_model detTrained evZero (some [[1, 2], [3, 4]]) none =
      Except.error ValueErrorMsg := by
  constructor
  · intro s ev tc tl h
    unfold evaluate_model
    rw [h]
    rfl
  · rfl

/-- Claim C9 witness: the sentinel branch of `evaluate_model_spec` evaluated
on a concrete untrained detector. -/
theorem evaluate_model_spec_witness :
    evaluate_model detUntrained evZero none none = Except.ok ⟨1, 0⟩ :=
  evaluate_model_spec.1 detUntrained evZero none none rfl

/-- Claim C10 counterexample: on a detector with zero channels, the
categorization list `[[0]]` makes `categorize_spontaneous` raise IndexError
at `self.spontaneous_cutouts[chan_index]`, so the call terminates without
setting the `categorized` flag — refuting the claim for arbitrary two-level
lists. -/
theorem categorize_spontaneous_counterexample :
    categorize_spontaneous detNoChannels [[0]] = Except.error IndexErrorMsg ∧
    ¬ ∃ s2 : DetectorState,
        categorize_spontaneous detNoChannels [[0]] = Except.ok s2 ∧
        s2.categorized = true := by
  refine ⟨rfl, ?_⟩
  rintro ⟨s2, h, _⟩
  rw [show categorize_spontaneous detNoChannels [[0]] =
        Except.error IndexErrorMsg from rfl] at h
  exact Except.noConfusion h

/-- Claim C10 amended: for every two-level categorization list with at most
one row per existing channel (including the empty list and lists whose rows
are all shorter than their channel's component count), `categorize_spontaneous`
returns normally and the detector-level `categorized` flag is `True`
afterwards; it is never left `False` because individual channels rejected
their category lists. -/
theorem categorize_spontaneous_amended :
    ∀ (s : DetectorState) (L : List (List ℤ)),
      L.length ≤ s.spontaneous_cutouts.length →
      ∃ s2 : DetectorState, categorize_spontaneous s L = Except.ok s2 ∧
        s2.categorized = true := by
  intro s L h
  obtain ⟨cs2, hcs2, _⟩ :=
    categorizeSpontaneousAux_ok L s.spontaneous_cutouts 0 (by omega)
  refine ⟨{ s with spontaneous_cutouts := cs2, categorized := true }, ?_, rfl⟩
  unfold categorize_spontaneous
  rw [hcs2]

/-- Claim C10 witness: a one-channel detector categorized with one too-short
row still ends with the detector-level flag set. -/
theorem categorize_spontaneous_amended_witness :
    ∃ s2 : DetectorState,
      categorize_spontaneous detOneChan [[5]] = Except.ok s2 ∧
      s2.categorized = true :=
  categorize_spontaneous_amended detOneChan [[5]] (by decide)
